import Mathlib

/-
A shallow embedding of the batch route-validation core of the
osrm-validator repository (src/modules/osrm/validator.py together with
src/utils/helpers.py), and proofs of the specification's claims about it.

Modelling conventions:
* Python floats are modelled by the inductive PyFloat: a finite value is an
  exact rational, and NaN and the two infinities are explicit constructors.
  IEEE-754 rounding is abstracted to exact arithmetic.
* Cell values of the input table are modelled by CoordVal: values on which
  the Python builtin float() succeeds are CoordVal.num (this covers floats
  and numeric strings), values raising ValueError are CoordVal.badStr, and
  None (raising TypeError) is CoordVal.noneV.
* The network is modelled by an oracle of type Nat -> Attempt giving, for
  each attempt index (equal to the retry counter at that attempt), either a
  decoded JSON response, a retryable transport-level failure
  (requests.RequestException and its subclasses), or any other exception
  (for example a JSON decode failure), which the code treats as fatal.
* The external polyline library is modelled by an abstract total decode
  function String -> List (lat, lon); the code's catch-all except clause
  makes a raising decoder indistinguishable from an absent result.
* time.sleep and the random jitter of the retry delay have no observable
  effect on any outcome field and are not modelled; the delay VALUE
  computed by add_retry_delay is modelled for completeness.
-/

namespace OsrmValidator

/-- Model of a Python float: an exact rational, NaN, or a signed infinity. -/
inductive PyFloat where
  | fin (q : ℚ)
  | nan
  | inf (neg : Bool)
deriving DecidableEq

/-- Model of a value found in a coordinate cell of the input table.
num x : any value the builtin float() converts successfully (a float, an
int, or a numeric string); badStr s : a string float() rejects with
ValueError; noneV : None, rejected with TypeError. -/
inductive CoordVal where
  | num (x : PyFloat)
  | badStr (s : String)
  | noneV
deriving DecidableEq

/-- float(v) for a cell value: Except.error carries str(e) of the raised
ValueError or TypeError (message text approximates CPython's). -/
def pyFloat : CoordVal → Except String PyFloat
  | .num x => .ok x
  | .badStr s => .error ("could not convert string to float: " ++ s)
  | .noneV => .error "float() argument must be a string or a real number, not NoneType"

/-- One input row: the four required coordinate columns plus the opaque
passthrough columns (arbitrary additional columns, e.g. store/DC ids). -/
structure Row where
  origin_lon : CoordVal
  origin_lat : CoordVal
  dest_lon : CoordVal
  dest_lat : CoordVal
  extra : List (String × String)
deriving DecidableEq

/-- The four float() conversions at the top of process_route, in source
order; the first failing conversion's message is the one reported. -/
def parseCoords (row : Row) : Except String (PyFloat × PyFloat × PyFloat × PyFloat) := do
  let o1 ← pyFloat row.origin_lon
  let o2 ← pyFloat row.origin_lat
  let d1 ← pyFloat row.dest_lon
  let d2 ← pyFloat row.dest_lat
  return (o1, o2, d1, d2)

/-- step['maneuver'] : the 'location' key may be absent. -/
structure Maneuver where
  location : Option (ℚ × ℚ)
deriving DecidableEq

/-- One step of a leg: the 'geometry' and 'maneuver' keys may be absent. -/
structure Step where
  geometry : Option String
  maneuver : Option Maneuver
deriving DecidableEq

/-- One leg: the 'steps' key may be absent (none) or empty (some []). -/
structure Leg where
  steps : Option (List Step)
deriving DecidableEq

/-- One route: the 'legs' key may be absent or empty. -/
structure Route where
  legs : Option (List Leg)
deriving DecidableEq

/-- The decoded JSON response body: the 'routes' key may be absent or
empty.  Python's `'k' in d and d['k']` test treats both the same way. -/
structure RouteData where
  routes : Option (List Route)
deriving DecidableEq

/-- get_last_route_coordinate: extract the last coordinate of
routes[0].legs[0].steps[-1].  First block: if that step has a 'geometry'
key, polyline-decode it (dec yields (lat, lon) pairs) and, when nonempty,
return the last pair swapped to (lon, lat).  Fallback block: re-navigate
and return the step's maneuver location verbatim when present.  Otherwise
none.  The enclosing try/except (returning None) is subsumed by totality. -/
def get_last_route_coordinate (dec : String → List (ℚ × ℚ)) (route_data : RouteData) :
    Option (ℚ × ℚ) :=
  let firstBlock : Option (ℚ × ℚ) :=
    match route_data.routes with
    | some (route :: _) =>
      match route.legs with
      | some (leg :: _) =>
        match leg.steps with
        | some steps =>
          match steps.getLast? with
          | some last_step =>
            match last_step.geometry with
            | some geometry =>
              let coordinates := dec geometry
              match coordinates.getLast? with
              | some latlon => some (latlon.2, latlon.1)
              | none => none
            | none => none
          | none => none
        | none => none
      | _ => none
    | _ => none
  match firstBlock with
  | some r => some r
  | none =>
    match route_data.routes with
    | some (route :: _) =>
      match route.legs with
      | some (leg :: _) =>
        match leg.steps with
        | some steps =>
          match steps.getLast? with
          | some last_step =>
            match last_step.maneuver with
            | some m =>
              match m.location with
              | some loc => some loc
              | none => none
            | none => none
          | none => none
        | none => none
      | _ => none
    | _ => none

/-- The api_settings dictionary.  Each field models one key, none meaning
the key is absent; the defaults of the source's .get calls are applied at
the use sites, as in the source. -/
structure ApiSettings where
  BASE_URL : Option String
  ACCESS_TOKEN : Option String
  PROFILES : Option (List (String × String))
  OVERVIEW : Option String
  STEPS : Option String
  GEOMETRIES : Option String
  APPROACHES : Option String
  START_TIME : Option String
  CUSTOM_PARAMS : Option (List (String × String))
deriving DecidableEq

/-- Python dict assignment d[k] = v on an insertion-ordered association
list: update the existing binding in place, else append a new one. -/
def dictSet : List (String × String) → String → String → List (String × String)
  | [], k, v => [(k, v)]
  | p :: ps, k, v => if p.1 = k then (k, v) :: ps else p :: dictSet ps k v

/-- Abstraction of Python's shortest-roundtrip float formatting used by
the f-string that builds the coordinate part of the URL; no claim inspects
the URL string, so only the shape matters here. -/
def pyFloatRepr : PyFloat → String
  | .fin q => toString q
  | .nan => "nan"
  | .inf false => "inf"
  | .inf true => "-inf"

/-- UTF-8 bytes of a character, for percent-encoding. -/
def utf8Bytes (c : Char) : List ℕ :=
  let n := c.toNat
  if n < 0x80 then [n]
  else if n < 0x800 then [0xC0 + n / 0x40, 0x80 + n % 0x40]
  else if n < 0x10000 then
    [0xE0 + n / 0x1000, 0x80 + (n / 0x40) % 0x40, 0x80 + n % 0x40]
  else
    [0xF0 + n / 0x40000, 0x80 + (n / 0x1000) % 0x40, 0x80 + (n / 0x40) % 0x40,
      0x80 + n % 0x40]

/-- An uppercase hexadecimal digit. -/
def hexChar (n : ℕ) : Char :=
  if n < 10 then Char.ofNat (48 + n) else Char.ofNat (55 + n)

/-- urllib.parse.quote_plus: keep alphanumerics and _.-~, turn a space
into +, percent-encode every other byte of the UTF-8 encoding. -/
def quotePlus (s : String) : String :=
  s.data.foldl
    (fun acc c =>
      if c.isAlphanum || c = '_' || c = '.' || c = '-' || c = '~' then
        acc.push c
      else if c = ' ' then
        acc.push '+'
      else
        (utf8Bytes c).foldl
          (fun a b => (a.push '%' |>.push (hexChar (b / 16))).push (hexChar (b % 16)))
          acc)
    ""

/-- urllib.parse.urlencode on an insertion-ordered mapping. -/
def urlencodeParams (ps : List (String × String)) : String :=
  String.intercalate "&" (ps.map fun kv => quotePlus kv.1 ++ "=" ++ quotePlus kv.2)

/-- The body of the custom-parameters loop of build_osrm_url: an entry is
added (dict assignment) only when its name and value are both truthy
(non-empty strings) and the name is not start_time. -/
def customParamStep (ps : List (String × String)) (kv : String × String) :
    List (String × String) :=
  if kv.1 ≠ "" ∧ kv.2 ≠ "" ∧ kv.1 ≠ "start_time" then dictSet ps kv.1 kv.2 else ps

/-- The params mapping assembled by build_osrm_url, before urlencode.
now is the value datetime.now().strftime(...) would produce at call time
(the function is nondeterministic in the source; the timestamp is a
parameter here).  Note the source's truthiness filter on custom
parameters: an entry with an empty name or an empty value is skipped. -/
def osrmQueryParams (api_settings : ApiSettings) (now : String) :
    List (String × String) :=
  let params : List (String × String) :=
    [("access_token", api_settings.ACCESS_TOKEN.getD ""),
     ("overview", api_settings.OVERVIEW.getD "false"),
     ("steps", api_settings.STEPS.getD "true"),
     ("geometries", api_settings.GEOMETRIES.getD "polyline6"),
     ("approaches", api_settings.APPROACHES.getD "unrestricted;unrestricted")]
  let params :=
    match api_settings.START_TIME with
    | some t => dictSet params "start_time" t
    | none =>
      match (api_settings.CUSTOM_PARAMS.getD []).lookup "start_time" with
      | some t => dictSet params "start_time" t
      | none => dictSet params "start_time" now
  (api_settings.CUSTOM_PARAMS.getD []).foldl customParamStep params

/-- build_osrm_url: base url, resolved profile value, the coordinate pair
serialized as lon,lat;lon,lat, and the urlencoded query parameters. -/
def build_osrm_url (origin_lon origin_lat dest_lon dest_lat : PyFloat)
    (api_settings : ApiSettings) (profile_value : String) (now : String) : String :=
  let base_url := api_settings.BASE_URL.getD ""
  let coordinates :=
    pyFloatRepr origin_lon ++ "," ++ pyFloatRepr origin_lat ++ ";" ++
      pyFloatRepr dest_lon ++ "," ++ pyFloatRepr dest_lat
  let query_string := urlencodeParams (osrmQueryParams api_settings now)
  base_url ++ profile_value ++ "/" ++ coordinates ++ "?" ++ query_string

/-- math.radians. -/
noncomputable def radians (x : ℝ) : ℝ := x * Real.pi / 180

/-- The haversine great-circle distance of validator.py, in meters, over
exact real arithmetic (the IEEE-754 evaluation is abstracted). -/
noncomputable def haversine (lon1 lat1 lon2 lat2 : ℝ) : ℝ :=
  let rlon1 := radians lon1
  let rlat1 := radians lat1
  let rlon2 := radians lon2
  let rlat2 := radians lat2
  let dlon := rlon2 - rlon1
  let dlat := rlat2 - rlat1
  let a := Real.sin (dlat / 2) ^ 2 +
    Real.cos rlat1 * Real.cos rlat2 * Real.sin (dlon / 2) ^ 2
  let c := 2 * Real.arcsin (Real.sqrt a)
  let r : ℝ := 6371
  c * r * 1000

/-- Embedding of a Python float into ℝ for the distance computation.  The
non-finite values (whose haversine result would be NaN, a value no claim
inspects) are mapped to 0. -/
noncomputable def PyFloat.toRealLossy : PyFloat → ℝ
  | .fin q => (q : ℝ)
  | _ => 0

/-- The delay value computed by add_retry_delay (utils/helpers.py):
delay = base_delay ** retry_count perturbed by a uniformly random jitter
factor, passed in here as jitter_value from the interval
[-jitter, jitter].  The time.sleep it performs has no modelled effect. -/
def add_retry_delay (retry_count : ℕ) (base_delay jitter_value : ℚ) : ℚ :=
  let delay := base_delay ^ retry_count
  delay + delay * jitter_value

/-- The observable result of one HTTP attempt (requests.get followed by
raise_for_status and response.json()).  ok: a decoded JSON body;
retryable: an exception of the requests.RequestException family
(connection failure, timeout, HTTP error status); fatal: any other
exception, e.g. a JSON decode failure of the body. -/
inductive Attempt where
  | ok (data : RouteData)
  | retryable (msg : String)
  | fatal (msg : String)
deriving DecidableEq

/-- One result record of process_route: exactly the nine keys of the dict
literals it returns. -/
structure RouteOutcome where
  origin_lon : CoordVal
  origin_lat : CoordVal
  dest_lon : CoordVal
  dest_lat : CoordVal
  last_route_lon : Option ℚ
  last_route_lat : Option ℚ
  distance_to_dest : Option ℝ
  status : String
  retries : ℕ

/-- The key list of every dict literal returned by process_route (all
five return sites build the same nine keys, in this order). -/
def outcomeKeys : List String :=
  ["origin_lon", "origin_lat", "dest_lon", "dest_lat", "last_route_lon",
   "last_route_lat", "distance_to_dest", "status", "retries"]

/-- The failure-shaped dict literal of process_route (used at four return
sites): converted coordinates, null route point and distance, the given
status and retry count. -/
def mkErrorOutcome (o1 o2 d1 d2 : PyFloat) (status : String) (retries : ℕ) :
    RouteOutcome :=
  ⟨.num o1, .num o2, .num d1, .num d2, none, none, none, status, retries⟩

/-- The success dict literal of process_route: the extracted last route
coordinate and its haversine distance to the requested destination. -/
noncomputable def mkSuccessOutcome (o1 o2 d1 d2 : PyFloat) (lc : ℚ × ℚ)
    (retries : ℕ) : RouteOutcome :=
  ⟨.num o1, .num o2, .num d1, .num d2, some lc.1, some lc.2,
    some (haversine lc.1 lc.2 d1.toRealLossy d2.toRealLossy), "success", retries⟩

/-- The while-True loop of process_route.  retry_count is the current
value of the retry counter (also the index of the current attempt);
remaining = max_retries - retry_count is the number of retries the
`retry_count < max_retries` guard still allows, so the source's guard is
`remaining > 0` and the recursion is structural in remaining. -/
noncomputable def processLoop (dec : String → List (ℚ × ℚ)) (net : ℕ → Attempt)
    (o1 o2 d1 d2 : PyFloat) (retry_count remaining : ℕ) : RouteOutcome :=
  match net retry_count with
  | .ok route_data =>
    match get_last_route_coordinate dec route_data with
    | some last_coordinate => mkSuccessOutcome o1 o2 d1 d2 last_coordinate retry_count
    | none =>
      mkErrorOutcome o1 o2 d1 d2 "error: could not extract last coordinate" retry_count
  | .fatal m => mkErrorOutcome o1 o2 d1 d2 ("error: unexpected - " ++ m) retry_count
  | .retryable m =>
    match remaining with
    | 0 => mkErrorOutcome o1 o2 d1 d2 ("error: " ++ m) retry_count
    | r + 1 => processLoop dec net o1 o2 d1 d2 (retry_count + 1) r

/-- process_route: convert the four coordinates (a ValueError/TypeError
returns the local validation outcome, with the raw row values, before any
network activity), resolve the profile, build the URL, then run the
request/retry loop starting at retry_count = 0. -/
noncomputable def process_route (dec : String → List (ℚ × ℚ)) (net : ℕ → Attempt)
    (api_settings : ApiSettings) (api_profile : String) (now : String)
    (row : Row) (max_retries : ℕ) : RouteOutcome :=
  match parseCoords row with
  | .error m =>
    ⟨row.origin_lon, row.origin_lat, row.dest_lon, row.dest_lat, none, none, none,
      "error: invalid coordinates - " ++ m, 0⟩
  | .ok (o1, o2, d1, d2) =>
    let profiles := api_settings.PROFILES.getD []
    let profile_value := (profiles.lookup api_profile).getD api_profile
    let _url := build_osrm_url o1 o2 d1 d2 api_settings profile_value now
    processLoop dec net o1 o2 d1 d2 0 max_retries

/-- process_batch: submit process_route for every row of the batch (with
the source's default max_retries = 3) and collect one result per row.
The nondeterministic completion order of the thread pool permutes the
rows of the batch result; the claims below are order-insensitive (row
count and field values), so the submission order is used.  The network
oracle is keyed by the row so each request has its own behavior. -/
noncomputable def process_batch (dec : String → List (ℚ × ℚ))
    (net : Row → ℕ → Attempt) (api_settings : ApiSettings) (api_profile : String)
    (now : String) (batch : List Row) : List RouteOutcome :=
  batch.map (fun row => process_route dec (net row) api_settings api_profile now row 3)

/-- validate_routes: slice the table into total_batches consecutive
batches via start_idx = i * batch_size, end_idx = min(start_idx +
batch_size, total_rows), run process_batch on each, and concatenate the
per-batch results in batch order (pd.concat).  The returned statistics
are not modelled; only the outcome table is. -/
noncomputable def validate_routes (dec : String → List (ℚ × ℚ))
    (net : Row → ℕ → Attempt) (api_settings : ApiSettings) (api_profile : String)
    (now : String) (df : List Row) (batch_size : ℕ) : List RouteOutcome :=
  let total_rows := df.length
  let total_batches := (total_rows + batch_size - 1) / batch_size
  ((List.range total_batches).map
    (fun i =>
      process_batch dec net api_settings api_profile now
        ((df.drop (i * batch_size)).take batch_size))).flatten

/- Concrete sample inputs used by witnesses and counterexamples. -/

/-- A polyline decoder yielding no coordinates, for inputs whose decoding
never happens. -/
def decNone : String → List (ℚ × ℚ) := fun _ => []

/-- A polyline decoder yielding two (lat, lon) pairs. -/
def decTwo : String → List (ℚ × ℚ) := fun _ => [(1, 2), (3, 4)]

/-- An api_settings dictionary with every key absent. -/
def apiEmpty : ApiSettings := ⟨none, none, none, none, none, none, none, none, none⟩

/-- api_settings whose CUSTOM_PARAMS holds one entry with an empty value
(falsy in Python), plus an explicit START_TIME. -/
def apiFalsyCustom : ApiSettings :=
  ⟨none, none, none, none, none, none, none, some "2024-01-01T00:00:00+00:00",
    some [("extra", "")]⟩

/-- api_settings whose CUSTOM_PARAMS holds one ordinary entry. -/
def apiOneCustom : ApiSettings :=
  ⟨none, none, none, none, none, none, none, some "2024-01-01T00:00:00+00:00",
    some [("alternatives", "3")]⟩

/-- A step carrying both a geometry and a maneuver location. -/
def stepBoth : Step := ⟨some "g", some ⟨some (9, 9)⟩⟩

/-- A leg holding the single step stepBoth. -/
def legBoth : Leg := ⟨some [stepBoth]⟩

/-- A route holding the single leg legBoth. -/
def routeBoth : Route := ⟨some [legBoth]⟩

/-- A response whose single step has both a geometry and a maneuver
location. -/
def rdBoth : RouteData := ⟨some [routeBoth]⟩

/-- A response with an empty routes list. -/
def rdNoRoutes : RouteData := ⟨some []⟩

/-- A network oracle that always fails at the transport level. -/
def netAlwaysFail : ℕ → Attempt := fun _ => .retryable "boom"

/-- A network oracle that fails once at the transport level, then returns
rdBoth. -/
def netFailOnce : ℕ → Attempt := fun i => if i = 0 then .retryable "boom" else .ok rdBoth

/-- A network oracle (keyed by row) that always answers rdBoth. -/
def netAllOk : Row → ℕ → Attempt := fun _ _ => .ok rdBoth

/-- A row whose coordinates all convert to finite floats, with no
passthrough columns. -/
def rowGood : Row := ⟨.num (.fin 1), .num (.fin 2), .num (.fin 3), .num (.fin 4), []⟩

/-- A row whose origin longitude is the float nan: float() succeeds on it,
so it is not a local validation error. -/
def rowNan : Row := ⟨.num .nan, .num (.fin 2), .num (.fin 3), .num (.fin 4), []⟩

/-- A row whose origin longitude is a non-numeric string: float() raises
ValueError. -/
def rowBadStr : Row := ⟨.badStr "abc", .num (.fin 2), .num (.fin 3), .num (.fin 4), []⟩

/-- A good row carrying one passthrough column. -/
def rowPassthrough : Row :=
  ⟨.num (.fin 1), .num (.fin 2), .num (.fin 3), .num (.fin 4),
    [("store_location", "S1")]⟩

/- Helper lemmas. -/

/-- No error status is the success status. -/
theorem err_append_ne_success (m : String) : "error: " ++ m ≠ "success" := by
  intro h
  have hl := congrArg String.length h
  rw [String.length_append] at hl
  rw [show "error: ".length = 7 from rfl, show "success".length = 7 from rfl] at hl
  have hm : m.length = 0 := by omega
  cases m with
  | mk data =>
    simp [String.length] at hm
    subst hm
    exact absurd h (by decide)

/-- One-step unfolding of the loop: a successful attempt whose response
yields a coordinate. -/
theorem processLoop_eq_ok (dec : String → List (ℚ × ℚ)) (net : ℕ → Attempt)
    (o1 o2 d1 d2 : PyFloat) (rc remaining : ℕ) (data : RouteData) (lc : ℚ × ℚ)
    (h : net rc = .ok data) (hd : get_last_route_coordinate dec data = some lc) :
    processLoop dec net o1 o2 d1 d2 rc remaining =
      mkSuccessOutcome o1 o2 d1 d2 lc rc := by
  rw [processLoop.eq_def, h]
  simp [hd]

/-- One-step unfolding of the loop: a successful attempt whose response
yields no coordinate (the decode error, not retried). -/
theorem processLoop_eq_decode_err (dec : String → List (ℚ × ℚ)) (net : ℕ → Attempt)
    (o1 o2 d1 d2 : PyFloat) (rc remaining : ℕ) (data : RouteData)
    (h : net rc = .ok data) (hd : get_last_route_coordinate dec data = none) :
    processLoop dec net o1 o2 d1 d2 rc remaining =
      mkErrorOutcome o1 o2 d1 d2 "error: could not extract last coordinate" rc := by
  rw [processLoop.eq_def, h]
  simp [hd]

/-- One-step unfolding of the loop: a fatal attempt (not retried). -/
theorem processLoop_eq_fatal (dec : String → List (ℚ × ℚ)) (net : ℕ → Attempt)
    (o1 o2 d1 d2 : PyFloat) (rc remaining : ℕ) (m : String)
    (h : net rc = .fatal m) :
    processLoop dec net o1 o2 d1 d2 rc remaining =
      mkErrorOutcome o1 o2 d1 d2 ("error: unexpected - " ++ m) rc := by
  rw [processLoop.eq_def, h]

/-- One-step unfolding of the loop: a retryable attempt with the retry
budget exhausted. -/
theorem processLoop_eq_exhausted (dec : String → List (ℚ × ℚ)) (net : ℕ → Attempt)
    (o1 o2 d1 d2 : PyFloat) (rc : ℕ) (m : String)
    (h : net rc = .retryable m) :
    processLoop dec net o1 o2 d1 d2 rc 0 =
      mkErrorOutcome o1 o2 d1 d2 ("error: " ++ m) rc := by
  rw [processLoop.eq_def, h]

/-- One-step unfolding of the loop: a retryable attempt with retry budget
left increments the counter and loops. -/
theorem processLoop_eq_retry (dec : String → List (ℚ × ℚ)) (net : ℕ → Attempt)
    (o1 o2 d1 d2 : PyFloat) (rc r : ℕ) (m : String)
    (h : net rc = .retryable m) :
    processLoop dec net o1 o2 d1 d2 rc (r + 1) =
      processLoop dec net o1 o2 d1 d2 (rc + 1) r := by
  rw [processLoop.eq_def, h]

/-- The retry counter of the loop grows by at most the remaining retry
budget. -/
theorem processLoop_retries_le (dec : String → List (ℚ × ℚ)) (net : ℕ → Attempt)
    (o1 o2 d1 d2 : PyFloat) :
    ∀ remaining retry_count,
      (processLoop dec net o1 o2 d1 d2 retry_count remaining).retries ≤
        retry_count + remaining := by
  intro remaining
  induction remaining with
  | zero =>
    intro rc
    cases h : net rc with
    | ok data =>
      cases hd : get_last_route_coordinate dec data with
      | some lc =>
        rw [processLoop_eq_ok dec net o1 o2 d1 d2 rc 0 data lc h hd]
        simp [mkSuccessOutcome]
      | none =>
        rw [processLoop_eq_decode_err dec net o1 o2 d1 d2 rc 0 data h hd]
        simp [mkErrorOutcome]
    | retryable m =>
      rw [processLoop_eq_exhausted dec net o1 o2 d1 d2 rc m h]
      simp [mkErrorOutcome]
    | fatal m =>
      rw [processLoop_eq_fatal dec net o1 o2 d1 d2 rc 0 m h]
      simp [mkErrorOutcome]
  | succ r ih =>
    intro rc
    cases h : net rc with
    | ok data =>
      cases hd : get_last_route_coordinate dec data with
      | some lc =>
        rw [processLoop_eq_ok dec net o1 o2 d1 d2 rc (r + 1) data lc h hd]
        simp [mkSuccessOutcome]
      | none =>
        rw [processLoop_eq_decode_err dec net o1 o2 d1 d2 rc (r + 1) data h hd]
        simp [mkErrorOutcome]
    | retryable m =>
      rw [processLoop_eq_retry dec net o1 o2 d1 d2 rc r m h]
      have := ih (rc + 1)
      omega
    | fatal m =>
      rw [processLoop_eq_fatal dec net o1 o2 d1 d2 rc (r + 1) m h]
      simp [mkErrorOutcome]

/-- If every attempt fails at the transport level, the loop consumes its
whole remaining budget and reports the last attempt's message. -/
theorem processLoop_all_retryable (dec : String → List (ℚ × ℚ)) (net : ℕ → Attempt)
    (o1 o2 d1 d2 : PyFloat) (m : ℕ → String)
    (hnet : ∀ i, net i = .retryable (m i)) :
    ∀ remaining retry_count,
      processLoop dec net o1 o2 d1 d2 retry_count remaining =
        mkErrorOutcome o1 o2 d1 d2 ("error: " ++ m (retry_count + remaining))
          (retry_count + remaining) := by
  intro remaining
  induction remaining with
  | zero =>
    intro rc
    rw [processLoop_eq_exhausted dec net o1 o2 d1 d2 rc (m rc) (hnet rc)]
    simp
  | succ r ih =>
    intro rc
    rw [show rc + (r + 1) = (rc + 1) + r by omega]
    rw [processLoop_eq_retry dec net o1 o2 d1 d2 rc r (m rc) (hnet rc)]
    exact ih (rc + 1)

/-- If the first k attempts fail at the transport level and attempt k
yields a response whose last coordinate extracts, the loop succeeds with
retry counter k, provided the remaining budget reaches k. -/
theorem processLoop_retry_then_ok (dec : String → List (ℚ × ℚ)) (net : ℕ → Attempt)
    (o1 o2 d1 d2 : PyFloat) (k : ℕ) (m : ℕ → String) (data : RouteData) (lc : ℚ × ℚ)
    (hfail : ∀ i, i < k → net i = .retryable (m i)) (hok : net k = .ok data)
    (hdec : get_last_route_coordinate dec data = some lc) :
    ∀ remaining retry_count, retry_count ≤ k → k ≤ retry_count + remaining →
      processLoop dec net o1 o2 d1 d2 retry_count remaining =
        mkSuccessOutcome o1 o2 d1 d2 lc k := by
  intro remaining
  induction remaining with
  | zero =>
    intro rc h1 h2
    have hrc : rc = k := by omega
    subst hrc
    exact processLoop_eq_ok dec net o1 o2 d1 d2 rc 0 data lc hok hdec
  | succ r ih =>
    intro rc h1 h2
    rcases Nat.eq_or_lt_of_le h1 with heq | hlt
    · subst heq
      exact processLoop_eq_ok dec net o1 o2 d1 d2 rc (r + 1) data lc hok hdec
    · rw [processLoop_eq_retry dec net o1 o2 d1 d2 rc r (m rc) (hfail rc hlt)]
      exact ih (rc + 1) hlt (by omega)

/-- Every loop outcome's status is success or an error string. -/
theorem processLoop_status (dec : String → List (ℚ × ℚ)) (net : ℕ → Attempt)
    (o1 o2 d1 d2 : PyFloat) :
    ∀ remaining retry_count,
      (processLoop dec net o1 o2 d1 d2 retry_count remaining).status = "success" ∨
        ∃ m, (processLoop dec net o1 o2 d1 d2 retry_count remaining).status =
          "error: " ++ m := by
  intro remaining
  induction remaining with
  | zero =>
    intro rc
    cases h : net rc with
    | ok data =>
      cases hd : get_last_route_coordinate dec data with
      | some lc =>
        left
        rw [processLoop_eq_ok dec net o1 o2 d1 d2 rc 0 data lc h hd]
        rfl
      | none =>
        right
        refine ⟨"could not extract last coordinate", ?_⟩
        rw [processLoop_eq_decode_err dec net o1 o2 d1 d2 rc 0 data h hd]
        rfl
    | retryable m =>
      right
      refine ⟨m, ?_⟩
      rw [processLoop_eq_exhausted dec net o1 o2 d1 d2 rc m h]
      rfl
    | fatal m =>
      right
      refine ⟨"unexpected - " ++ m, ?_⟩
      rw [processLoop_eq_fatal dec net o1 o2 d1 d2 rc 0 m h]
      show "error: unexpected - " ++ m = "error: " ++ ("unexpected - " ++ m)
      rw [← String.append_assoc]
      rfl
  | succ r ih =>
    intro rc
    cases h : net rc with
    | ok data =>
      cases hd : get_last_route_coordinate dec data with
      | some lc =>
        left
        rw [processLoop_eq_ok dec net o1 o2 d1 d2 rc (r + 1) data lc h hd]
        rfl
      | none =>
        right
        refine ⟨"could not extract last coordinate", ?_⟩
        rw [processLoop_eq_decode_err dec net o1 o2 d1 d2 rc (r + 1) data h hd]
        rfl
    | retryable m =>
      rw [processLoop_eq_retry dec net o1 o2 d1 d2 rc r m h]
      exact ih (rc + 1)
    | fatal m =>
      right
      refine ⟨"unexpected - " ++ m, ?_⟩
      rw [processLoop_eq_fatal dec net o1 o2 d1 d2 rc (r + 1) m h]
      show "error: unexpected - " ++ m = "error: " ++ ("unexpected - " ++ m)
      rw [← String.append_assoc]
      rfl

/-- Dict assignment makes the assigned key map to the assigned value. -/
theorem lookup_dictSet_self (ps : List (String × String)) (k v : String) :
    (dictSet ps k v).lookup k = some v := by
  induction ps with
  | nil => simp [dictSet, List.lookup]
  | cons p t ih =>
    by_cases h : p.1 = k
    · simp [dictSet, h, List.lookup]
    · have hb : (k == p.1) = false := beq_eq_false_iff_ne.mpr (Ne.symm h)
      simp [dictSet, h, List.lookup, hb, ih]

/-- Dict assignment leaves the other keys' values unchanged. -/
theorem lookup_dictSet_ne (ps : List (String × String)) (k k' v : String)
    (h : k ≠ k') : (dictSet ps k' v).lookup k = ps.lookup k := by
  have hb : (k == k') = false := beq_eq_false_iff_ne.mpr h
  induction ps with
  | nil => simp [dictSet, List.lookup, hb]
  | cons p t ih =>
    by_cases hp : p.1 = k'
    · have hbp : (k == p.1) = false := by rw [hp]; exact hb
      simp [dictSet, hp, List.lookup, hb, hbp]
    · by_cases hpk : p.1 = k
      · have hbt : (k == p.1) = true := beq_iff_eq.mpr hpk.symm
        simp [dictSet, hp, List.lookup, hbt]
      · have hbf : (k == p.1) = false := beq_eq_false_iff_ne.mpr (Ne.symm hpk)
        simp [dictSet, hp, List.lookup, hbf, ih]

/-- The custom-parameters loop does not touch a key that is not among the
loop's entries. -/
theorem lookup_foldl_custom_stable (k : String) :
    ∀ (l : List (String × String)), (∀ kv ∈ l, k ≠ kv.1) →
      ∀ ps, (l.foldl customParamStep ps).lookup k = ps.lookup k := by
  intro l
  induction l with
  | nil => intro _ ps; rfl
  | cons kv t ih =>
    intro h ps
    rw [List.foldl_cons]
    rw [ih (fun kv' h' => h kv' (List.mem_cons_of_mem kv h'))]
    unfold customParamStep
    by_cases hc : kv.1 ≠ "" ∧ kv.2 ≠ "" ∧ kv.1 ≠ "start_time"
    · rw [if_pos hc]
      exact lookup_dictSet_ne ps k kv.1 kv.2 (h kv (List.mem_cons_self kv t))
    · rw [if_neg hc]

/-- A truthy, non-start_time entry of the custom-parameters loop ends up
in the mapping, assuming the (dict-given) uniqueness of the entry keys. -/
theorem lookup_foldl_custom (k v : String) (hk : k ≠ "") (hv : v ≠ "")
    (hst : k ≠ "start_time") :
    ∀ (l : List (String × String)), (k, v) ∈ l → (l.map Prod.fst).Nodup →
      ∀ ps, (l.foldl customParamStep ps).lookup k = some v := by
  intro l
  induction l with
  | nil => intro hmem; simp at hmem
  | cons kv t ih =>
    intro hmem hnd ps
    rw [List.map_cons, List.nodup_cons] at hnd
    rw [List.foldl_cons]
    rcases List.mem_cons.mp hmem with heq | hmemt
    · have hstep : customParamStep ps kv = dictSet ps k v := by
        rw [← heq]
        unfold customParamStep
        exact if_pos ⟨hk, hv, hst⟩
      rw [hstep]
      have hknot : ∀ kv' ∈ t, k ≠ kv'.1 := by
        intro kv' h' hkeq
        have h1 : kv'.1 ∈ t.map Prod.fst := List.mem_map_of_mem Prod.fst h'
        have h2 : kv.1 ∉ t.map Prod.fst := hnd.1
        rw [← heq] at h2
        exact h2 (by rw [hkeq]; exact h1)
      rw [lookup_foldl_custom_stable k t hknot (dictSet ps k v)]
      exact lookup_dictSet_self ps k v
    · exact ih hmemt hnd.2 (customParamStep ps kv)

/-- The batch slices of validate_routes, flattened from slice index k on,
reassemble the table from row k * batch_size on. -/
theorem chunks_flatten_drop {α : Type} (l : List α) (B : ℕ) (hB : 0 < B) :
    ∀ n k, k + n = (l.length + B - 1) / B →
      ((List.range' k n).map (fun i => (l.drop (i * B)).take B)).flatten =
        l.drop (k * B) := by
  intro n
  induction n with
  | zero =>
    intro k hk
    have hT : l.length ≤ k * B := by
      have hkq : k = (l.length + B - 1) / B := by simpa using hk
      have h1 := Nat.div_add_mod (l.length + B - 1) B
      have h2 := Nat.mod_lt (l.length + B - 1) hB
      rw [hkq, mul_comm]
      revert h1 h2
      generalize B * ((l.length + B - 1) / B) = P
      generalize (l.length + B - 1) % B = R
      intro h1 h2
      omega
    simp [List.drop_eq_nil_of_le hT]
  | succ m ih =>
    intro k hk
    rw [List.range'_succ]
    simp only [List.map_cons, List.flatten_cons]
    rw [ih (k + 1) (by omega)]
    rw [show (k + 1) * B = k * B + B by ring]
    exact List.drop_take_append_drop l (k * B) B

/-- validate_routes is, row for row, process_route applied to every row of
the table (with the default max_retries = 3 used by process_batch): the
batching is a partition of the table. -/
theorem validate_routes_eq_map (dec : String → List (ℚ × ℚ))
    (net : Row → ℕ → Attempt) (api_settings : ApiSettings) (api_profile : String)
    (now : String) (df : List Row) (batch_size : ℕ) (hB : 0 < batch_size) :
    validate_routes dec net api_settings api_profile now df batch_size =
      df.map (fun row =>
        process_route dec (net row) api_settings api_profile now row 3) := by
  simp only [validate_routes, process_batch]
  rw [List.range_eq_range']
  rw [show (fun i => List.map
        (fun row => process_route dec (net row) api_settings api_profile now row 3)
        ((df.drop (i * batch_size)).take batch_size)) =
      (List.map (fun row =>
        process_route dec (net row) api_settings api_profile now row 3)) ∘
      (fun i => (df.drop (i * batch_size)).take batch_size) from rfl]
  rw [← List.map_map, ← List.map_flatten]
  rw [chunks_flatten_drop df batch_size hB _ 0 (by omega)]
  simp

/-- validate_routes returns exactly one outcome row per input row. -/
theorem validate_routes_length (dec : String → List (ℚ × ℚ))
    (net : Row → ℕ → Attempt) (api_settings : ApiSettings) (api_profile : String)
    (now : String) (df : List Row) (batch_size : ℕ) (hB : 0 < batch_size) :
    (validate_routes dec net api_settings api_profile now df batch_size).length =
      df.length := by
  rw [validate_routes_eq_map dec net api_settings api_profile now df batch_size hB]
  exact List.length_map df _

/- Claim theorems. -/

/-- C9: the geodesic distance is symmetric, distance(a, b) = distance(b, a)
for every pair of (lon, lat) points — exactly, in the real-arithmetic
model of haversine, hence within any floating-point tolerance. -/
theorem haversine_symm (lon1 lat1 lon2 lat2 : ℝ) :
    haversine lon1 lat1 lon2 lat2 = haversine lon2 lat2 lon1 lat1 := by
  simp only [haversine]
  have hs : ∀ x y : ℝ, Real.sin ((x - y) / 2) ^ 2 = Real.sin ((y - x) / 2) ^ 2 := by
    intro x y
    rw [show (x - y) / 2 = -((y - x) / 2) by ring, Real.sin_neg, neg_sq]
  rw [hs (radians lat2) (radians lat1), hs (radians lon2) (radians lon1),
    mul_comm (Real.cos (radians lat1)) (Real.cos (radians lat2))]

/-- C2: process_route is total and exception-free: for every input row,
settings bag, profile, timestamp, polyline decoder, network behavior and
retry bound it returns a RouteOutcome whose status is success or an error
string; the batch aggregation over such results is total by construction. -/
theorem process_route_total (dec : String → List (ℚ × ℚ)) (net : ℕ → Attempt)
    (api_settings : ApiSettings) (api_profile now : String) (row : Row)
    (max_retries : ℕ) :
    (process_route dec net api_settings api_profile now row max_retries).status =
        "success" ∨
      ∃ m, (process_route dec net api_settings api_profile now row
        max_retries).status = "error: " ++ m := by
  cases hp : parseCoords row with
  | error m =>
    right
    refine ⟨"invalid coordinates - " ++ m, ?_⟩
    have he : process_route dec net api_settings api_profile now row max_retries =
        ⟨row.origin_lon, row.origin_lat, row.dest_lon, row.dest_lat, none, none, none,
          "error: invalid coordinates - " ++ m, 0⟩ := by
      rw [process_route.eq_def, hp]
    rw [he]
    show "error: invalid coordinates - " ++ m = "error: " ++ ("invalid coordinates - " ++ m)
    rw [← String.append_assoc]
    rfl
  | ok q =>
    obtain ⟨o1, o2, d1, d2⟩ := q
    have he : process_route dec net api_settings api_profile now row max_retries =
        processLoop dec net o1 o2 d1 d2 0 max_retries := by
      rw [process_route.eq_def, hp]
    rw [he]
    exact processLoop_status dec net o1 o2 d1 d2 max_retries 0

/-- C10: in every outcome of process_route the retries field is a natural
number bounded by max_retries, on every path: success, decode error,
exhausted retries, fatal error and local validation error. -/
theorem process_route_retries_bounded (dec : String → List (ℚ × ℚ))
    (net : ℕ → Attempt) (api_settings : ApiSettings) (api_profile now : String)
    (row : Row) (max_retries : ℕ) :
    0 ≤ (process_route dec net api_settings api_profile now row max_retries).retries ∧
      (process_route dec net api_settings api_profile now row max_retries).retries ≤
        max_retries := by
  refine ⟨Nat.zero_le _, ?_⟩
  cases hp : parseCoords row with
  | error m =>
    have he : process_route dec net api_settings api_profile now row max_retries =
        ⟨row.origin_lon, row.origin_lat, row.dest_lon, row.dest_lat, none, none, none,
          "error: invalid coordinates - " ++ m, 0⟩ := by
      rw [process_route.eq_def, hp]
    rw [he]
    exact Nat.zero_le _
  | ok q =>
    obtain ⟨o1, o2, d1, d2⟩ := q
    have he : process_route dec net api_settings api_profile now row max_retries =
        processLoop dec net o1 o2 d1 d2 0 max_retries := by
      rw [process_route.eq_def, hp]
    rw [he]
    have h := processLoop_retries_le dec net o1 o2 d1 d2 max_retries 0
    omega

/-- C5: a request whose coordinates convert but whose HTTP attempt fails at
the transport level on every attempt yields a terminal outcome with exactly
max_retries retries, the status carrying the last attempt's exception
message, and never success. -/
theorem process_route_retry_exhaustion (dec : String → List (ℚ × ℚ))
    (net : ℕ → Attempt) (api_settings : ApiSettings) (api_profile now : String)
    (row : Row) (max_retries : ℕ) (o1 o2 d1 d2 : PyFloat) (m : ℕ → String)
    (hp : parseCoords row = .ok (o1, o2, d1, d2))
    (hnet : ∀ i, net i = .retryable (m i)) :
    (process_route dec net api_settings api_profile now row max_retries).status =
        "error: " ++ m max_retries ∧
    (process_route dec net api_settings api_profile now row max_retries).retries =
        max_retries ∧
    (process_route dec net api_settings api_profile now row max_retries).status ≠
        "success" := by
  have he : process_route dec net api_settings api_profile now row max_retries =
      processLoop dec net o1 o2 d1 d2 0 max_retries := by
    rw [process_route.eq_def, hp]
  rw [he, processLoop_all_retryable dec net o1 o2 d1 d2 m hnet max_retries 0,
    Nat.zero_add]
  exact ⟨rfl, rfl, err_append_ne_success (m max_retries)⟩

/-- C5 witness: with a network oracle that always fails, the outcome at
max_retries = 3 has status error: boom, 3 retries and is not a success. -/
theorem process_route_retry_exhaustion_witness :
    (process_route decNone netAlwaysFail apiEmpty "car" "T" rowGood 3).status =
        "error: " ++ "boom" ∧
    (process_route decNone netAlwaysFail apiEmpty "car" "T" rowGood 3).retries = 3 ∧
    (process_route decNone netAlwaysFail apiEmpty "car" "T" rowGood 3).status ≠
        "success" :=
  process_route_retry_exhaustion decNone netAlwaysFail apiEmpty "car" "T" rowGood 3
    (.fin 1) (.fin 2) (.fin 3) (.fin 4) (fun _ => "boom") rfl (fun _ => rfl)

/-- C6: a request whose coordinates convert, whose first k attempts fail at
the transport level with k below max_retries, and whose attempt k returns a
response with an extractable last coordinate, succeeds with retries = k. -/
theorem process_route_retry_then_success (dec : String → List (ℚ × ℚ))
    (net : ℕ → Attempt) (api_settings : ApiSettings) (api_profile now : String)
    (row : Row) (max_retries : ℕ) (o1 o2 d1 d2 : PyFloat) (k : ℕ) (m : ℕ → String)
    (data : RouteData) (lc : ℚ × ℚ)
    (hp : parseCoords row = .ok (o1, o2, d1, d2))
    (hfail : ∀ i, i < k → net i = .retryable (m i))
    (hok : net k = .ok data)
    (hdec : get_last_route_coordinate dec data = some lc)
    (hk : k < max_retries) :
    (process_route dec net api_settings api_profile now row max_retries).status =
        "success" ∧
    (process_route dec net api_settings api_profile now row max_retries).retries =
        k := by
  have he : process_route dec net api_settings api_profile now row max_retries =
      processLoop dec net o1 o2 d1 d2 0 max_retries := by
    rw [process_route.eq_def, hp]
  rw [he, processLoop_retry_then_ok dec net o1 o2 d1 d2 k m data lc hfail hok hdec
    max_retries 0 (Nat.zero_le k) (by omega)]
  exact ⟨rfl, rfl⟩

/-- C6 witness: one transport failure followed by a decodable response
yields a success outcome with retries = 1. -/
theorem process_route_retry_then_success_witness :
    (process_route decTwo netFailOnce apiEmpty "car" "T" rowGood 3).status =
        "success" ∧
    (process_route decTwo netFailOnce apiEmpty "car" "T" rowGood 3).retries = 1 :=
  process_route_retry_then_success decTwo netFailOnce apiEmpty "car" "T" rowGood 3
    (.fin 1) (.fin 2) (.fin 3) (.fin 4) 1 (fun _ => "boom") rdBoth (4, 3) rfl
    (by intro i hi; interval_cases i; rfl) rfl rfl (by omega)

/-- C3 counterexample: a row whose origin longitude is the float nan — not
a finite number — is not treated as a local validation error: float(nan)
succeeds, the request does reach the network layer (observable here as 3
consumed retries against an always-failing transport) and the outcome is a
transport error, not an invalid-coordinates error with 0 retries. -/
theorem nan_coordinate_reaches_network :
    (process_route decNone netAlwaysFail apiEmpty "car" "T" rowNan 3).retries = 3 ∧
    (process_route decNone netAlwaysFail apiEmpty "car" "T" rowNan 3).status =
      "error: boom" := by
  have he : process_route decNone netAlwaysFail apiEmpty "car" "T" rowNan 3 =
      processLoop decNone netAlwaysFail .nan (.fin 2) (.fin 3) (.fin 4) 0 3 := by
    rw [process_route.eq_def,
      show parseCoords rowNan =
        .ok (PyFloat.nan, .fin 2, .fin 3, .fin 4) from rfl]
  rw [he, processLoop_all_retryable decNone netAlwaysFail .nan (.fin 2) (.fin 3)
    (.fin 4) (fun _ => "boom") (fun _ => rfl) 3 0]
  exact ⟨rfl, rfl⟩

/-- C3 (amended): a request in which any of the four coordinates fails
float() conversion (ValueError or TypeError — a non-numeric string or
None; nan and the infinities convert successfully and proceed to the
network) produces the local validation outcome with retries = 0,
independent of the network oracle, so no request is ever issued for it. -/
theorem process_route_invalid_coords_local (dec : String → List (ℚ × ℚ))
    (net : ℕ → Attempt) (api_settings : ApiSettings) (api_profile now : String)
    (row : Row) (max_retries : ℕ) (m : String)
    (hp : parseCoords row = .error m) :
    process_route dec net api_settings api_profile now row max_retries =
      ⟨row.origin_lon, row.origin_lat, row.dest_lon, row.dest_lat, none, none, none,
        "error: invalid coordinates - " ++ m, 0⟩ := by
  rw [process_route.eq_def, hp]

/-- C3 witness: a non-numeric origin longitude yields the local validation
outcome with zero retries, under an always-failing network oracle that is
never consulted. -/
theorem process_route_invalid_coords_local_witness :
    process_route decNone netAlwaysFail apiEmpty "car" "T" rowBadStr 3 =
      ⟨.badStr "abc", .num (.fin 2), .num (.fin 3), .num (.fin 4), none, none, none,
        "error: invalid coordinates - could not convert string to float: abc", 0⟩ := by
  have h := process_route_invalid_coords_local decNone netAlwaysFail apiEmpty "car"
    "T" rowBadStr 3 "could not convert string to float: abc" rfl
  exact h

/-- C4 counterexample: a custom_params entry whose value is the empty
string (falsy) and whose key is not start_time is present in custom_params
but never appended to the query parameters, refuting the no-filtering
claim. -/
theorem falsy_custom_param_dropped :
    ("extra", "") ∈ apiFalsyCustom.CUSTOM_PARAMS.getD [] ∧
    (osrmQueryParams apiFalsyCustom "T").lookup "extra" = none := by
  constructor
  · simp [apiFalsyCustom]
  · decide

/-- C4 (amended): every custom_params entry whose key and value are both
truthy (non-empty strings) and whose key is not start_time is appended
verbatim — unmodified key and value — to the query parameter mapping;
entries with an empty key or empty value are silently dropped. -/
theorem custom_params_appended_verbatim (api_settings : ApiSettings)
    (now k v : String)
    (hmem : (k, v) ∈ api_settings.CUSTOM_PARAMS.getD [])
    (hk : k ≠ "") (hv : v ≠ "") (hst : k ≠ "start_time")
    (hnd : ((api_settings.CUSTOM_PARAMS.getD []).map Prod.fst).Nodup) :
    (osrmQueryParams api_settings now).lookup k = some v := by
  unfold osrmQueryParams
  exact lookup_foldl_custom k v hk hv hst (api_settings.CUSTOM_PARAMS.getD [])
    hmem hnd _

/-- C4 witness: an ordinary custom parameter appears unmodified in the
query parameter mapping. -/
theorem custom_params_appended_verbatim_witness :
    (osrmQueryParams apiOneCustom "T").lookup "alternatives" = some "3" :=
  custom_params_appended_verbatim apiOneCustom "T" "alternatives" "3"
    (by simp [apiOneCustom]) (by decide) (by decide) (by decide)
    (by simp [apiOneCustom])

/-- C7: for the last step of routes[0].legs[0]: with both a (nonempty-
decoding) geometry and a maneuver location the decoded geometry wins and
its last (lat, lon) pair is returned swapped to (lon, lat); with only a
maneuver location, that location is returned verbatim; with neither, the
result is absent. -/
theorem decoder_priority (dec : String → List (ℚ × ℚ)) (rd : RouteData)
    (route : Route) (rts : List Route) (leg : Leg) (lgs : List Leg)
    (steps : List Step) (s : Step)
    (h1 : rd.routes = some (route :: rts)) (h2 : route.legs = some (leg :: lgs))
    (h3 : leg.steps = some steps) (h4 : steps.getLast? = some s) :
    (∀ g mv loc p, s.geometry = some g → s.maneuver = some mv →
        mv.location = some loc → (dec g).getLast? = some p →
        get_last_route_coordinate dec rd = some (p.2, p.1)) ∧
    (∀ mv loc, s.geometry = none → s.maneuver = some mv → mv.location = some loc →
        get_last_route_coordinate dec rd = some loc) ∧
    (s.geometry = none → s.maneuver.bind Maneuver.location = none →
        get_last_route_coordinate dec rd = none) := by
  refine ⟨?_, ?_, ?_⟩
  · intro g mv loc p hg hmv hloc hp
    simp only [get_last_route_coordinate, h1, h2, h3, h4, hg, hp]
  · intro mv loc hg hmv hloc
    simp only [get_last_route_coordinate, h1, h2, h3, h4, hg, hmv, hloc]
  · intro hg hbind
    rcases hmv : s.maneuver with _ | mv
    · simp only [get_last_route_coordinate, h1, h2, h3, h4, hg, hmv]
    · rw [hmv] at hbind
      simp only [Option.some_bind] at hbind
      simp only [get_last_route_coordinate, h1, h2, h3, h4, hg, hmv, hbind]

/-- C7 witness: a step with geometry decoding to [(1, 2), (3, 4)] and a
maneuver location (9, 9) yields the decoded geometry's last pair swapped,
(4, 3), not the maneuver location. -/
theorem decoder_priority_witness :
    get_last_route_coordinate decTwo rdBoth = some (4, 3) :=
  (decoder_priority decTwo rdBoth routeBoth [] legBoth [] [stepBoth] stepBoth
    rfl rfl rfl rfl).1 "g" ⟨some (9, 9)⟩ (9, 9) (3, 4) rfl rfl rfl rfl

/-- C8: an empty or absent routes list, a first route with an empty or
absent legs list, or a first leg with an empty or absent steps list all
make the decoder return absent (and, being total, it raises nothing). -/
theorem decoder_absence (dec : String → List (ℚ × ℚ)) (rd : RouteData) :
    (rd.routes = none ∨ rd.routes = some [] →
      get_last_route_coordinate dec rd = none) ∧
    (∀ route rts, rd.routes = some (route :: rts) →
      route.legs = none ∨ route.legs = some [] →
      get_last_route_coordinate dec rd = none) ∧
    (∀ route rts leg lgs, rd.routes = some (route :: rts) →
      route.legs = some (leg :: lgs) →
      leg.steps = none ∨ leg.steps = some [] →
      get_last_route_coordinate dec rd = none) := by
  refine ⟨?_, ?_, ?_⟩
  · rintro (h | h) <;> simp [get_last_route_coordinate, h]
  · rintro route rts h1 (h | h) <;> simp [get_last_route_coordinate, h1, h]
  · rintro route rts leg lgs h1 h2 (h | h) <;>
      simp [get_last_route_coordinate, h1, h2, h]

/-- C8 witness: a response with an empty routes list decodes to absent. -/
theorem decoder_absence_witness :
    get_last_route_coordinate decNone rdNoRoutes = none :=
  (decoder_absence decNone rdNoRoutes).1 (Or.inr rfl)

/-- C1: at the failing input — a one-row table whose row carries the
passthrough column store_location = S1, batch_size 200 — the outcome table
does have exactly N = 1 rows, but its rows carry only the nine fixed
outcome keys: the passthrough column is absent from every outcome record,
contradicting the preservation half of the claim; the helper lemma
validate_routes_length settles the N-row half in general. -/
theorem passthrough_columns_dropped :
    (validate_routes decTwo netAllOk apiEmpty "car" "T" [rowPassthrough] 200).length
        = 1 ∧
    rowPassthrough.extra.lookup "store_location" = some "S1" ∧
    "store_location" ∉ outcomeKeys := by
  refine ⟨?_, by decide, by decide⟩
  rw [validate_routes_length decTwo netAllOk apiEmpty "car" "T" [rowPassthrough] 200
    (by omega)]
  rfl

end OsrmValidator
